import Mathlib

/-!
Verification of the brief-to-scene pipeline (planner, writer fallback, editor,
and the generation-service response handling) of the book-agents repository.

Text is modelled as Lean strings; the Python string operations used by the
code (lower, substring containment, replace, split, join, strip, find,
slicing) are given explicit executable models below, operating on the
underlying character lists.
-/

set_option maxRecDepth 100000

namespace BookAgents

/-! ### Python string primitives -/

/-- Lower-casing of one character, as Python lower-cases the ASCII and
Latin-1 letters that occur in the briefs and keyword tables (A-Z, and the
accented capitals in the Latin-1 range except the multiplication sign). -/
def pyLowerChar (c : Char) : Char :=
  if 65 ≤ c.toNat ∧ c.toNat ≤ 90 then Char.ofNat (c.toNat + 32)
  else if 0xC0 ≤ c.toNat ∧ c.toNat ≤ 0xDE ∧ c.toNat ≠ 0xD7 then Char.ofNat (c.toNat + 32)
  else c

/-- Python lower on a string. -/
def pyLower (s : String) : String := ⟨s.data.map pyLowerChar⟩

/-- Python substring containment test: needle in hay. -/
def pyContains (hay needle : String) : Bool := decide (needle.data <:+: hay.data)

/-- The characters Python strip removes: the Unicode whitespace set used by
str.strip with no argument. -/
def pyWhitespace : List Char :=
  [' ', '\t', '\n', '\x0d', '\x0b', '\x0c', '\x1c', '\x1d', '\x1e', '\x1f',
   '\x85', '\xa0', ' ', ' ', ' ', ' ', ' ', ' ',
   ' ', ' ', ' ', ' ', ' ', ' ', ' ',
   ' ', ' ', ' ', '　']

def pyIsSpace (c : Char) : Bool := pyWhitespace.contains c

/-- Python strip on a character list: drop whitespace from both ends. -/
def pyStripL (l : List Char) : List Char :=
  ((l.dropWhile pyIsSpace).reverse.dropWhile pyIsSpace).reverse

/-- Python strip on a string. -/
def pyStrip (s : String) : String := ⟨pyStripL s.data⟩

/-- Python str.replace on character lists: replace every non-overlapping
occurrence of old by new, scanning left to right and continuing after each
replacement. The fuel argument, always instantiated with the length of the
scanned list (an upper bound on the number of scanning steps), makes the
recursion structural so that the kernel can evaluate it. -/
def pyReplaceFuel (old new : List Char) : Nat → List Char → List Char
  | _, [] => []
  | 0, l => l
  | fuel + 1, c :: rest =>
    if old ≠ [] ∧ old <+: (c :: rest) then
      new ++ pyReplaceFuel old new fuel ((c :: rest).drop old.length)
    else
      c :: pyReplaceFuel old new fuel rest

def pyReplaceL (old new l : List Char) : List Char := pyReplaceFuel old new l.length l

/-- Python str.replace on strings. -/
def pyReplace (s old new : String) : String := ⟨pyReplaceL old.data new.data s.data⟩

/-- Python str.split(sep) with a non-empty separator, on character lists,
with the same structural-fuel scheme as pyReplaceFuel. -/
def pySplitFuel (sep : List Char) : Nat → List Char → List Char → List (List Char)
  | _, [], acc => [acc.reverse]
  | 0, l, acc => [acc.reverse ++ l]
  | fuel + 1, c :: rest, acc =>
    if sep ≠ [] ∧ sep <+: (c :: rest) then
      acc.reverse :: pySplitFuel sep fuel ((c :: rest).drop sep.length) []
    else
      pySplitFuel sep fuel rest (c :: acc)

/-- Python str.split(sep) on strings. -/
def pySplit (s sep : String) : List String :=
  (pySplitFuel sep.data s.data.length s.data []).map (fun l => ⟨l⟩)

/-- Python sep.join(parts). -/
def pyJoin (sep : String) : List String → String
  | [] => ""
  | p :: ps => ps.foldl (fun acc x => acc ++ sep ++ x) p

/-- Python str.find(needle): index of the first occurrence, if any. -/
def pyFindL (needle : List Char) : List Char → Option Nat
  | [] => if needle = [] then some 0 else none
  | c :: rest =>
    if needle <+: (c :: rest) then some 0
    else (pyFindL needle rest).map (· + 1)

/-! ### Planner: feature extraction (agents/planner.py, Planner._extract_elements) -/

structure Elements where
  characters : List String
  setting : String
  mood : String
  conflict_type : String
  time_period : String
  weather : String
  action : String
deriving DecidableEq

def extractElements (brief : String) : Elements :=
  let bl := pyLower brief
  { characters :=
      (if pyContains bl "ivana" then ["Ivana"] else []) ++
      (if pyContains bl "dr. manoel" || pyContains bl "manoel" || pyContains bl "dr manoel"
       then ["Dr. Manoel"] else []) ++
      (if pyContains bl "pai" && pyContains bl "filha" then ["Pai", "Filha"] else [])
    setting :=
      if pyContains bl "masp" then "MASP - Museu de Arte de São Paulo"
      else if pyContains bl "biblioteca" then "Biblioteca antiga"
      else if pyContains bl "café" then "Café em São Paulo"
      else if pyContains bl "metrô" || pyContains bl "metro" then "Estação de metrô"
      else ""
    mood :=
      if pyContains bl "tenso" then "tenso"
      else if pyContains bl "suspense" then "suspense"
      else if pyContains bl "emotivo" then "emotivo"
      else if pyContains bl "ação" || pyContains bl "acao" then "ação"
      else ""
    conflict_type :=
      if pyContains bl "encontro" then "encontro/confronto"
      else if pyContains bl "discussão" || pyContains bl "discutindo" then "discussão"
      else if pyContains bl "diálogo" || pyContains bl "dialogo" then "diálogo"
      else ""
    time_period :=
      if pyContains bl "noite" then "noite"
      else if pyContains bl "dia" then "dia"
      else if pyContains bl "tarde" then "tarde"
      else if pyContains bl "manhã" || pyContains bl "manha" then "manhã"
      else ""
    weather :=
      if pyContains bl "chuvosa" || pyContains bl "chuva" then "chuva"
      else if pyContains bl "sol" || pyContains bl "ensolarado" then "sol"
      else ""
    action :=
      if pyContains bl "rush" || pyContains bl "lotado" then "movimento intenso"
      else if pyContains bl "vazio" || pyContains bl "silencioso" then "ambiente calmo"
      else "" }

/-! ### Planner: plan rendering (agents/planner.py, Planner._create_scene_structure) -/

/-- Python falsy-or on strings: x or y. -/
def pyOr (x y : String) : String := if x = "" then y else x

/-- The AMBIENTACAO block lines: four dimensions with placeholder defaults,
plus a movement line only when an action was extracted. -/
def settingLines (e : Elements) : List String :=
  ["- **Local**: " ++ pyOr e.setting "Local a definir",
   "- **Período**: " ++ pyOr e.time_period "Período a definir",
   "- **Clima**: " ++ pyOr e.weather "Clima neutro",
   "- **Atmosfera**: " ++ pyOr e.mood "Atmosfera neutra"] ++
  (if e.action = "" then [] else ["- **Movimento**: " ++ e.action])

/-- The PERSONAGENS block lines. -/
def characterLines (e : Elements) : List String :=
  if e.characters = [] then ["- Personagens a definir"]
  else e.characters.map (fun c => "- " ++ c)

def tenseRainOutline : List String :=
  ["1. **Abertura atmosférica**: Estabelecer ambiente tenso com chuva",
   "2. **Chegada dos personagens**: Entrada gradual, criando expectativa",
   "3. **Confronto inicial**: Primeiras palavras carregadas de tensão",
   "4. **Escalada da tensão**: Revelações e posicionamentos",
   "5. **Clímax do encontro**: Momento de maior intensidade",
   "6. **Resolução/gancho**: Desfecho que mantém suspense"]

def emotionalOutline : List String :=
  ["1. **Ambientação emotiva**: Estabelecer cenário íntimo",
   "2. **Encontro dos personagens**: Aproximação gradual",
   "3. **Abertura emocional**: Primeiras palavras sinceras",
   "4. **Desenvolvimento**: Aprofundamento da conversa",
   "5. **Clímax emocional**: Momento de maior vulnerabilidade",
   "6. **Resolução**: Conexão ou separação definitiva"]

def actionOutline : List String :=
  ["1. **Setup dinâmico**: Estabelecer ambiente de movimento",
   "2. **Incidente inicial**: Evento que desencadeia a ação",
   "3. **Escalada**: Intensificação da situação",
   "4. **Complicações**: Obstáculos e desafios",
   "5. **Clímax de ação**: Momento de maior intensidade",
   "6. **Resolução**: Consequências e desfecho"]

def genericOutline : List String :=
  ["1. **Abertura**: Estabelecer cenário e atmosfera",
   "2. **Desenvolvimento**: Introdução dos personagens",
   "3. **Conflito**: Tensão ou situação central",
   "4. **Desenvolvimento**: Aprofundamento da situação",
   "5. **Clímax**: Momento decisivo",
   "6. **Resolução**: Desfecho da cena"]

/-- The PROGRESSAO NARRATIVA block: one of four fixed six-step outlines. -/
def progressionLines (e : Elements) : List String :=
  if e.mood = "tenso" ∧ e.weather = "chuva" then tenseRainOutline
  else if e.mood = "emotivo" then emotionalOutline
  else if e.mood = "ação" then actionOutline
  else genericOutline

/-- The mood-dependent lines of the ELEMENTOS TECNICOS block. -/
def technicalLines (e : Elements) : List String :=
  if e.mood = "tenso" then
    ["- **Ritmo**: Lento e deliberado, construindo tensão",
     "- **Recursos**: Descrição sensorial, silêncios significativos"]
  else if e.mood = "ação" then
    ["- **Ritmo**: Rápido e dinâmico",
     "- **Recursos**: Frases curtas, verbos de ação"]
  else if e.mood = "emotivo" then
    ["- **Ritmo**: Pausado e reflexivo",
     "- **Recursos**: Introspecção, detalhes emotivos"]
  else
    ["- **Ritmo**: Equilibrado",
     "- **Recursos**: Descrição equilibrada"]

/-- All plan parts, in the order the code appends them, joined with newlines. -/
def createSceneStructure (e : Elements) (brief : String) : String :=
  pyJoin "\n"
    (["## ESTRUTURA DA CENA",
      "\n**Brief Original:** " ++ brief,
      "\n### 1. AMBIENTAÇÃO"] ++
     settingLines e ++
     ["\n### 2. PERSONAGENS"] ++
     characterLines e ++
     ["\n### 3. PROGRESSÃO NARRATIVA"] ++
     progressionLines e ++
     ["\n### 4. ELEMENTOS TÉCNICOS",
      "- **Foco narrativo**: Terceira pessoa onisciente"] ++
     technicalLines e ++
     ["- **Diálogos**: Naturais e adequados ao tom da cena"])

/-- Planner.plan_scene. -/
def planScene (brief : String) : String :=
  createSceneStructure (extractElements brief) brief

/-! ### Writer: fallback feature extraction (agents/writer.py, Writer._analyze_brief) -/

structure WElements where
  setting : String
  characters : List String
  mood : String
  time : String
  weather : String
  action : String
deriving DecidableEq

def analyzeBrief (brief : String) : WElements :=
  let bl := pyLower brief
  { setting :=
      if pyContains bl "masp" then "MASP (Museu de Arte de São Paulo)"
      else if pyContains bl "biblioteca" then "biblioteca antiga"
      else if pyContains bl "café" then "café movimentado"
      else if pyContains bl "metrô" || pyContains bl "metro" then "estação de metrô"
      else ""
    characters :=
      (if pyContains bl "ivana" then ["Ivana"] else []) ++
      (if pyContains bl "dr. manoel" || pyContains bl "manoel" || pyContains bl "dr manoel"
       then ["Dr. Manoel"] else []) ++
      (if pyContains bl "pai" && pyContains bl "filha" then ["pai", "filha"] else [])
    mood :=
      if pyContains bl "tenso" then "tenso"
      else if pyContains bl "suspense" then "suspense"
      else if pyContains bl "emotivo" then "emotivo"
      else if pyContains bl "ação" || pyContains bl "acao" then "ação"
      else ""
    time :=
      if pyContains bl "noite" then "noite"
      else if pyContains bl "dia" then "dia"
      else if pyContains bl "tarde" then "tarde"
      else if pyContains bl "manhã" || pyContains bl "manha" then "manhã"
      else ""
    weather :=
      if pyContains bl "chuvosa" || pyContains bl "chuva" then "chuva"
      else if pyContains bl "sol" then "sol"
      else ""
    action :=
      if pyContains bl "encontro" then "encontro"
      else if pyContains bl "discussão" || pyContains bl "discutindo" then "discussão"
      else if pyContains bl "diálogo" || pyContains bl "dialogo" then "diálogo"
      else if pyContains bl "rush" || pyContains bl "lotado" then "movimento intenso"
      else "" }

/-! ### Writer: rule-based scene assembly
(agents/writer.py, Writer._generate_scene_content) -/

def maspRainOpening : String :=
  "A chuva tamborilava contra as grandes janelas do MASP, criando um ritmo hipnótico que ecoava pelos corredores vazios do museu. As luzes da Paulista se difundiam através das gotas d'água, pintando sombras dançantes nas paredes brancas."

def rainGenericOpening (setting : String) : String :=
  "A chuva caía pesadamente sobre a cidade, criando uma cortina de água que transformava " ++
  setting ++ " em um refúgio isolado do mundo exterior."

def maspDryOpening : String :=
  "O MASP se erguia majestoso na Paulista, suas linhas modernas contrastando com o movimento constante da avenida. No interior, o silêncio era quebrado apenas pelos passos ecoando no piso de concreto polido."

def cafeOpening : String :=
  "O café fervilhava de atividade, o aroma intenso misturando-se às conversas sobrepostas e ao tinir constante de xícaras e pratos."

def bibliotecaOpening : String :=
  "A biblioteca antiga exalava o cheiro característico de livros velhos e madeira envelhecida. A luz filtrada pelas janelas altas criava um ambiente solene e contemplativo."

def metroOpening : String :=
  "A estação de metrô pulsava com o movimento incessante de pessoas. O som dos trens chegando e partindo criava uma sinfonia urbana constante."

def genericOpening : String :=
  "O ambiente estava carregado de expectativa, como se algo importante estivesse prestes a acontecer."

/-- Atmospheric-opening fragment: zero or one string appended to content. -/
def openingParts (e : WElements) : List String :=
  if e.weather = "chuva" ∧ pyContains e.setting "MASP" then [maspRainOpening]
  else if e.weather = "chuva" then [rainGenericOpening e.setting]
  else if e.setting ≠ "" then
    (if pyContains e.setting "MASP" then [maspDryOpening]
     else if pyContains e.setting "café" then [cafeOpening]
     else if pyContains e.setting "biblioteca" then [bibliotecaOpening]
     else if pyContains e.setting "metrô" then [metroOpening]
     else [])
  else [genericOpening]

def ivanaManoelExchange : List String :=
  ["\nIvana chegou primeiro, seus passos ecoando no espaço. Dr. Manoel apareceu momentos depois, o semblante grave.",
   "\n\"Você veio,\" disse Ivana.",
   "\n\"Tinha que vir,\" respondeu Dr. Manoel. \"Precisamos resolver isso.\"",
   "\nO silêncio se estendeu entre eles, carregado de tensão.",
   "\n\"Então você sabe a verdade,\" ela disse.",
   "\n\"Sei mais do que você imagina,\" ele respondeu, dando um passo à frente."]

def paiFilhaVignette : List String :=
  ["\nO pai chegou pontualmente, como sempre. Sua filha já estava lá, mexendo nervosamente no celular, evitando o olhar direto que sabia que viria.",
   "\nQuando seus olhos finalmente se encontraram, ambos souberam que aquela conversa não poderia ser adiada por mais tempo."]

def genericCharacterLine : String :=
  "\nOs personagens se encontraram, cada um carregando suas próprias intenções. A conversa que se seguiu revelaria verdades há muito escondidas."

/-- Character-interaction fragment. -/
def characterParts (e : WElements) : List String :=
  if e.characters.contains "Ivana" ∧ e.characters.contains "Dr. Manoel" then
    ivanaManoelExchange
  else if e.characters.contains "pai" ∧ e.characters.contains "filha" then
    paiFilhaVignette
  else [genericCharacterLine]

def rainClosing : String :=
  "\nLá fora, a chuva continuava caindo, mas algo havia mudado entre eles. O que aconteceria a seguir dependeria das escolhas que cada um faria."

def tenseClosing : String :=
  "\nO encontro chegava ao fim, mas as questões levantadas ecoariam por muito tempo. Algumas palavras, uma vez ditas, não podem ser desfeitas."

def genericClosing : String :=
  "\nQuando se separaram, ambos sabiam que nada seria como antes. As palavras trocadas ecoariam por muito tempo."

/-- Closing fragment. -/
def closingParts (e : WElements) : List String :=
  if e.weather = "chuva" then [rainClosing]
  else if e.mood = "tenso" then [tenseClosing]
  else [genericClosing]

/-- Writer._generate_scene_content: the scene_plan and brief parameters are
accepted, as in the source, but the assembly uses only the elements. -/
def generateSceneContent (e : WElements) (scenePlan brief : String) : String :=
  pyJoin "\n" (openingParts e ++ characterParts e ++ closingParts e)

/-- Writer._write_scene_fallback. -/
def writeSceneFallback (brief scenePlan : String) : String :=
  generateSceneContent (analyzeBrief brief) scenePlan brief

/-! ### Editor (agents/editor.py) -/

/-- The ordered literal corrections of Editor._apply_style_corrections. -/
def corrections : List (String × String) :=
  [(" ,", ","), (" .", "."), ("  ", " "), ("\n\n\n", "\n\n")]

/-- Editor._apply_style_corrections: apply each correction once, in order. -/
def applyStyleCorrections (content : String) : String :=
  corrections.foldl (fun acc c => pyReplace acc c.1 c.2) content

/-- Editor._enhance_paragraph: two gated hard-coded replacements; the second,
when its gate holds, replaces from the original paragraph, overwriting the
first enhancement. -/
def enhanceParagraph (paragraph : String) : String :=
  let e1 :=
    if pyContains (pyLower paragraph) "chuva" ∧ pyContains (pyLower paragraph) "tamborilava" then
      pyReplace paragraph "tamborilava contra as grandes janelas"
        "tamborilava incessantemente contra as grandes janelas de vidro"
    else paragraph
  if pyContains paragraph "Dr. Manoel" ∧ pyContains paragraph "silhueta" then
    pyReplace paragraph "a silhueta familiar de Dr. Manoel"
      "a silhueta inconfundível de Dr. Manoel"
  else e1

/-- Editor._enhance_prose: split on blank-line separators, keep paragraphs
with non-empty strip, enhance each, rejoin. -/
def enhanceProse (content : String) : String :=
  pyJoin "\n\n"
    (((pySplit content "\n\n").filter (fun p => pyStrip p ≠ "")).map enhanceParagraph)

/-- Line handling inside Editor._final_polish: dialogue and narrative lines
are distinguished but both passed through unchanged. -/
def polishLine (line : String) : String :=
  if pyStrip line ≠ "" then
    if "\"".data <+: (pyStrip line).data ∧ "\"".data <:+ (pyStrip line).data then line
    else line
  else line

/-- The first substitution of Editor._add_final_formatting: the pattern
of a sentence-ending punctuation mark followed by a blank line and an
opening quote is rewritten to itself. -/
def subPunctFuel : Nat → List Char → List Char
  | _, [] => []
  | 0, l => l
  | fuel + 1, c :: rest =>
    if (c = '.' ∨ c = '!' ∨ c = '?') ∧ rest.take 3 = ['\n', '\n', '"'] then
      c :: '\n' :: '\n' :: '"' :: subPunctFuel fuel (rest.drop 3)
    else c :: subPunctFuel fuel rest

def subPunctDialogue (l : List Char) : List Char := subPunctFuel l.length l

/-- The second substitution of Editor._add_final_formatting: every maximal
run of three or more newlines is collapsed to exactly two. -/
def collapseNLFuel : Nat → List Char → List Char
  | _, [] => []
  | 0, l => l
  | fuel + 1, c :: rest =>
    if c = '\n' ∧ rest.take 2 = ['\n', '\n'] then
      '\n' :: '\n' :: collapseNLFuel fuel (rest.dropWhile (· = '\n'))
    else c :: collapseNLFuel fuel rest

def collapseNewlines (l : List Char) : List Char := collapseNLFuel l.length l

/-- Editor._add_final_formatting. -/
def addFinalFormatting (content : String) : String :=
  pyStrip ⟨collapseNewlines (subPunctDialogue content.data)⟩

/-- Editor._final_polish. -/
def finalPolish (content : String) : String :=
  addFinalFormatting (pyJoin "\n" ((pySplit content "\n").map polishLine))

/-- Editor.edit_scene: the brief and scene_plan parameters are accepted, as
in the source, but unused. -/
def editScene (sceneContent brief scenePlan : String) : String :=
  finalPolish (enhanceProse (applyStyleCorrections sceneContent))

/-! ### LLM engine (engine/llm.py, LLMEngine) -/

/-- Text of the canned fallback response before the interpolated brief. -/
def fallbackHead : String :=
  "[Gerado com fallback - Ollama indisponível]\n\n**Cena baseada no brief:** "

/-- Text of the canned fallback response between the brief and the model name. -/
def fallbackMid : String :=
  "\n\nO ambiente estava carregado de expectativa. A atmosfera densa prenunciava que algo importante estava prestes a acontecer.\n\nOs personagens se encontraram no local combinado, cada um trazendo suas próprias motivações e segredos. Havia uma tensão palpável no ar, como se as palavras não ditas pesassem mais do que aquelas que seriam pronunciadas.\n\n\"Precisamos conversar,\" disse uma voz, quebrando o silêncio.\n\n\"Eu sei,\" veio a resposta, carregada de significado.\n\nO diálogo que se seguiu revelou camadas de complexidade que nenhum dos dois havia antecipado. Cada palavra trocada os aproximava mais de uma verdade que ambos temiam e desejavam ao mesmo tempo.\n\nQuando o encontro chegou ao fim, ambos sabiam que nada seria como antes. As decisões tomadas naquele momento ecoariam por muito tempo, moldando o futuro de maneiras que ainda não conseguiam compreender completamente.\n\n*[Nota: Para obter conteúdo gerado por IA, certifique-se de que o Ollama está rodando e o modelo "

/-- Text of the canned fallback response after the model name. -/
def fallbackTail : String := " está disponível]*"

/-- The brief-recovery logic at the start of LLMEngine._fallback_response. -/
def extractBriefFromPrompt (prompt : String) : String :=
  if pyContains prompt "BRIEF DA CENA:" then
    let bs := (pyFindL "BRIEF DA CENA:".data prompt.data).getD 0 + "BRIEF DA CENA:".length
    let be :=
      match pyFindL "\n\n".data (prompt.data.drop bs) with
      | some k => bs + k
      | none => bs + 200
    pyStrip ⟨(prompt.data.take be).drop bs⟩
  else "cena não especificada"

/-- LLMEngine._fallback_response. -/
def fallbackResponse (model prompt : String) : String :=
  fallbackHead ++ extractBriefFromPrompt prompt ++ fallbackMid ++ model ++ fallbackTail

/-- The response handling of LLMEngine.generate on an HTTP 200 response whose
body carries the given response text: strip it, return it if non-empty and
longer than 50 characters, otherwise return the canned fallback response. -/
def generateFromOkResponse (model prompt responseText : String) : String :=
  let generated_text := pyStrip responseText
  if generated_text ≠ "" ∧ generated_text.length > 50 then generated_text
  else fallbackResponse model prompt

/-! ### Writer: AI path (agents/writer.py, Writer._write_scene_ai) -/

/-- The prompt assembled by Writer._write_scene_ai from the project context,
the brief and the plan. -/
def buildPrompt (styleGuide characters world brief scenePlan : String) : String :=
  let contextParts :=
    (if styleGuide = "" then [] else ["GUIA DE ESTILO:\n" ++ styleGuide]) ++
    (if characters = "" then [] else ["PERSONAGENS:\n" ++ characters]) ++
    (if world = "" then [] else ["MUNDO/CENÁRIO:\n" ++ world])
  let context := if contextParts = [] then "" else pyJoin "\n\n" contextParts
  "Você é um escritor profissional especializado em narrativa literária. Sua tarefa é escrever uma cena baseada no brief e plano fornecidos.\n\n" ++
  context ++
  "\n\nBRIEF DA CENA:\n" ++ brief ++
  "\n\nPLANO ESTRUTURAL:\n" ++ scenePlan ++
  "\n\nINSTRUÇÕES:\n- Escreva uma cena narrativa completa e envolvente\n- Use terceira pessoa onisciente\n- Inclua descrições sensoriais detalhadas\n- Desenvolva diálogos naturais e significativos\n- Mantenha consistência com o estilo e personagens\n- A cena deve ter entre 300-600 palavras\n- Use linguagem literária em português brasileiro\n\nCENA:"

/-- Writer._write_scene_ai, on the path where the generation service sends an
HTTP 200 response with the given body text: the engine result is stripped,
and content that is empty or shorter than 50 characters is replaced by the
rule-based fallback. -/
def writeSceneAI (model styleGuide characters world brief scenePlan responseText : String) :
    String :=
  let prompt := buildPrompt styleGuide characters world brief scenePlan
  let sceneContent := pyStrip (generateFromOkResponse model prompt responseText)
  if sceneContent = "" ∨ sceneContent.length < 50 then writeSceneFallback brief scenePlan
  else sceneContent

/-- A fixed brief used in the scenario-style claims. -/
def scenarioBrief : String :=
  "Escreva um encontro tenso no MASP entre Ivana e Dr. Manoel, noite chuvosa."

/-- The setting block as the amended specification words it: each of the four
dimensions local, period, weather and atmosphere is rendered as the extracted
value, or as its placeholder line when the dimension is absent; the movement
line is present exactly when an action feature was extracted, and omitted
otherwise. -/
def settingBlockSpec (e : Elements) : List String :=
  [if e.setting = "" then "- **Local**: Local a definir" else "- **Local**: " ++ e.setting,
   if e.time_period = "" then "- **Período**: Período a definir"
   else "- **Período**: " ++ e.time_period,
   if e.weather = "" then "- **Clima**: Clima neutro" else "- **Clima**: " ++ e.weather,
   if e.mood = "" then "- **Atmosfera**: Atmosfera neutra" else "- **Atmosfera**: " ++ e.mood] ++
  (if e.action = "" then [] else ["- **Movimento**: " ++ e.action])

/-! ### Helper lemmas -/

theorem dropWhile_head_false {p : Char → Bool} {c : Char} :
    ∀ {l : List Char}, (l.dropWhile p).head? = some c → p c = false := by
  intro l h
  induction l with
  | nil => simp at h
  | cons x xs ih =>
    rw [List.dropWhile_cons] at h
    by_cases hx : p x = true
    · exact ih (by simpa [hx] using h)
    · rw [if_neg hx] at h
      simp only [List.head?_cons, Option.some.injEq] at h
      subst h
      simpa using hx

theorem dropWhile_eq_self_of_head {p : Char → Bool} {l : List Char}
    (h : ∀ c, l.head? = some c → p c = false) : l.dropWhile p = l := by
  cases l with
  | nil => rfl
  | cons x xs =>
    rw [List.dropWhile_cons, if_neg]
    simp [h x rfl]

theorem getLast?_of_suffix {l₁ l₂ : List Char} (h : l₁ <:+ l₂) (hne : l₁ ≠ []) :
    l₁.getLast? = l₂.getLast? := by
  obtain ⟨pre, rfl⟩ := h
  rw [List.getLast?_append]
  cases hg : l₁.getLast? with
  | none => exact absurd (List.getLast?_eq_none_iff.mp hg) hne
  | some c => simp

theorem pyStripL_head_false {l : List Char} {c : Char}
    (h : (pyStripL l).head? = some c) : pyIsSpace c = false := by
  unfold pyStripL at h
  rw [List.head?_reverse] at h
  have hsuf : (l.dropWhile pyIsSpace).reverse.dropWhile pyIsSpace <:+
      (l.dropWhile pyIsSpace).reverse := List.dropWhile_suffix _
  have hne : (l.dropWhile pyIsSpace).reverse.dropWhile pyIsSpace ≠ [] := by
    intro hnil
    rw [hnil] at h
    simp at h
  rw [getLast?_of_suffix hsuf hne, List.getLast?_reverse] at h
  exact dropWhile_head_false h

theorem pyStripL_getLast_false {l : List Char} {c : Char}
    (h : (pyStripL l).getLast? = some c) : pyIsSpace c = false := by
  unfold pyStripL at h
  rw [List.getLast?_reverse] at h
  exact dropWhile_head_false h

theorem pyStripL_eq_self {l : List Char}
    (hh : ∀ c, l.head? = some c → pyIsSpace c = false)
    (hl : ∀ c, l.getLast? = some c → pyIsSpace c = false) : pyStripL l = l := by
  unfold pyStripL
  rw [dropWhile_eq_self_of_head hh]
  rw [dropWhile_eq_self_of_head (by simpa using hl)]
  exact List.reverse_reverse l

/-- The strip at the end of the editor pipeline is idempotent. -/
theorem pyStripL_idem (l : List Char) : pyStripL (pyStripL l) = pyStripL l :=
  pyStripL_eq_self (fun _ h => pyStripL_head_false h) (fun _ h => pyStripL_getLast_false h)

theorem collapseNLFuel_head (fuel : Nat) :
    ∀ l : List Char, (collapseNLFuel fuel l).head? = l.head? := by
  induction fuel with
  | zero => intro l; cases l <;> rfl
  | succ fuel ih =>
    intro l
    cases l with
    | nil => rfl
    | cons c rest =>
      rw [collapseNLFuel]
      by_cases hc : c = '\n' ∧ rest.take 2 = ['\n', '\n']
      · rw [if_pos hc, hc.1]
        rfl
      · rw [if_neg hc]
        rfl

theorem singleton_prefix_head {a : Char} {l : List Char} (h : [a] <+: l) :
    l.head? = some a := by
  obtain ⟨suf, rfl⟩ := h
  rfl

theorem collapseNLFuel_no_triple :
    ∀ (fuel : Nat) (l : List Char), l.length ≤ fuel →
      ¬ (['\n', '\n', '\n'] <:+: collapseNLFuel fuel l) := by
  intro fuel
  induction fuel with
  | zero =>
    intro l hl
    have : l = [] := List.length_eq_zero.mp (Nat.le_zero.mp hl)
    subst this
    simp [collapseNLFuel, List.infix_nil]
  | succ fuel ih =>
    intro l hl
    cases l with
    | nil => simp [collapseNLFuel, List.infix_nil]
    | cons c rest =>
      simp only [List.length_cons, Nat.add_le_add_iff_right] at hl
      rw [collapseNLFuel]
      by_cases hc : c = '\n' ∧ rest.take 2 = ['\n', '\n']
      · rw [if_pos hc]
        set R := rest.dropWhile (· = '\n') with hR
        have hRlen : R.length ≤ fuel :=
          le_trans (List.dropWhile_suffix _).length_le hl
        have hRhead : ∀ d, R.head? = some d → d ≠ '\n' := by
          intro d hd hdn
          have := dropWhile_head_false (p := (· = '\n')) hd
          simp [hdn] at this
        intro htriple
        rcases List.infix_cons_iff.mp htriple with hpre | hrest
        · rcases List.cons_prefix_cons.mp hpre with ⟨-, hpre2⟩
          rcases List.cons_prefix_cons.mp hpre2 with ⟨-, hpre3⟩
          have := singleton_prefix_head hpre3
          rw [collapseNLFuel_head] at this
          exact hRhead '\n' this rfl
        · rcases List.infix_cons_iff.mp hrest with hpre | hrest2
          · rcases List.cons_prefix_cons.mp hpre with ⟨-, hpre2⟩
            have hThead : (collapseNLFuel fuel R).head? = some '\n' := by
              obtain ⟨suf, hsuf⟩ := hpre2
              rw [← hsuf]
              rfl
            rw [collapseNLFuel_head] at hThead
            exact hRhead '\n' hThead rfl
          · exact ih R hRlen hrest2
      · rw [if_neg hc]
        intro htriple
        rcases List.infix_cons_iff.mp htriple with hpre | hrest
        · rcases List.cons_prefix_cons.mp hpre with ⟨hcEq, hpre2⟩
          subst hcEq
          have hT2 : (['\n', '\n'] : List Char) <+: collapseNLFuel fuel rest := hpre2
          have hThead : (collapseNLFuel fuel rest).head? = some '\n' := by
            obtain ⟨suf, hsuf⟩ := hT2
            rw [← hsuf]
            rfl
          rw [collapseNLFuel_head] at hThead
          obtain ⟨r2, rfl⟩ : ∃ r2, rest = '\n' :: r2 := by
            cases rest with
            | nil => simp at hThead
            | cons x xs =>
              simp only [List.head?_cons, Option.some.injEq] at hThead
              exact ⟨xs, by rw [hThead]⟩
          have hr2 : ∀ d, r2.head? = some d → d ≠ '\n' := by
            intro d hd hdn
            apply hc
            refine ⟨rfl, ?_⟩
            cases r2 with
            | nil => simp at hd
            | cons y ys =>
              simp only [List.head?_cons, Option.some.injEq] at hd
              subst hd
              subst hdn
              rfl
          obtain ⟨fuel2, rfl⟩ : ∃ f2, fuel = f2 + 1 := by
            cases fuel with
            | zero => simp at hl
            | succ f2 => exact ⟨f2, rfl⟩
          have hcond : ¬ ('\n' = '\n' ∧ r2.take 2 = ['\n', '\n']) := by
            rintro ⟨-, htk⟩
            cases r2 with
            | nil => simp at htk
            | cons y ys =>
              simp only [List.take_succ_cons, List.cons.injEq] at htk
              exact hr2 y rfl htk.1
          have hTeq : collapseNLFuel (fuel2 + 1) ('\n' :: r2) =
              '\n' :: collapseNLFuel fuel2 r2 := by
            rw [collapseNLFuel, if_neg hcond]
          rw [hTeq] at hT2
          rcases List.cons_prefix_cons.mp hT2 with ⟨-, hT3⟩
          have := singleton_prefix_head hT3
          rw [collapseNLFuel_head] at this
          exact hr2 '\n' this rfl
        · exact ih rest hl hrest

theorem pyStripL_infix_self (l : List Char) : pyStripL l <:+: l := by
  unfold pyStripL
  have h1 : (l.dropWhile pyIsSpace).reverse.dropWhile pyIsSpace <:+
      (l.dropWhile pyIsSpace).reverse := List.dropWhile_suffix _
  obtain ⟨pre, hpre⟩ := h1
  have : ((l.dropWhile pyIsSpace).reverse.dropWhile pyIsSpace).reverse <+:
      l.dropWhile pyIsSpace := by
    refine ⟨pre.reverse, ?_⟩
    have := congrArg List.reverse hpre
    simpa using this
  exact this.isInfix.trans (List.dropWhile_suffix _).isInfix

/-- A replacement whose pattern does not occur in the scanned list leaves it
unchanged. -/
theorem pyReplaceFuel_eq_self {old : List Char} (new : List Char) :
    ∀ (fuel : Nat) (l : List Char), ¬ (old <:+: l) → pyReplaceFuel old new fuel l = l := by
  intro fuel
  induction fuel with
  | zero => intro l _; cases l <;> rfl
  | succ fuel ih =>
    intro l hocc
    cases l with
    | nil => rfl
    | cons c rest =>
      rw [pyReplaceFuel]
      rw [if_neg (fun hcond => hocc hcond.2.isInfix)]
      rw [ih rest (fun hin => hocc (hin.trans (List.suffix_cons c rest).isInfix))]

theorem pyReplace_eq_self {s old : String} (new : String)
    (h : pyContains s old = false) : pyReplace s old new = s := by
  have hocc : ¬ (old.data <:+: s.data) := by
    simpa [pyContains] using h
  cases s with
  | mk d =>
    show (⟨pyReplaceL old.data new.data d⟩ : String) = ⟨d⟩
    rw [pyReplaceL, pyReplaceFuel_eq_self new.data d.length d hocc]

theorem fallbackResponse_head (model prompt : String) :
    (fallbackResponse model prompt).data.head? = some '[' := by
  have h1 : (fallbackResponse model prompt).data =
      fallbackHead.data ++ ((extractBriefFromPrompt prompt).data ++
        (fallbackMid.data ++ (model.data ++ fallbackTail.data))) := by
    simp [fallbackResponse, String.data_append]
  rw [h1, List.head?_append]
  have h2 : fallbackHead.data.head? = some '[' := by decide
  rw [h2]
  rfl

theorem fallbackResponse_getLast (model prompt : String) :
    (fallbackResponse model prompt).data.getLast? = some '*' := by
  have h1 : (fallbackResponse model prompt).data =
      (fallbackHead ++ extractBriefFromPrompt prompt ++ fallbackMid ++ model).data ++
        fallbackTail.data := by
    rw [fallbackResponse, String.data_append]
  rw [h1, List.getLast?_append]
  have h2 : fallbackTail.data.getLast? = some '*' := by decide
  rw [h2]
  rfl

theorem fallbackResponse_length (model prompt : String) :
    50 < (fallbackResponse model prompt).length := by
  have h1 : 50 < fallbackHead.length := by decide
  simp only [fallbackResponse, String.length_append]
  omega

theorem fallbackResponse_strip (model prompt : String) :
    pyStrip (fallbackResponse model prompt) = fallbackResponse model prompt := by
  show (⟨pyStripL (fallbackResponse model prompt).data⟩ : String) = fallbackResponse model prompt
  rw [pyStripL_eq_self ?hh ?hl]
  case hh =>
    intro c hc
    rw [fallbackResponse_head] at hc
    cases hc
    decide
  case hl =>
    intro c hc
    rw [fallbackResponse_getLast] at hc
    cases hc
    decide

theorem addFinalFormatting_props (s : String) :
    ¬ (['\n', '\n', '\n'] <:+: (addFinalFormatting s).data) ∧
    pyStrip (addFinalFormatting s) = addFinalFormatting s := by
  have hw_noTriple : ¬ (['\n', '\n', '\n'] <:+:
      collapseNewlines (subPunctDialogue s.data)) :=
    collapseNLFuel_no_triple _ _ le_rfl
  have hout : (addFinalFormatting s).data =
      pyStripL (collapseNewlines (subPunctDialogue s.data)) := rfl
  constructor
  · rw [hout]
    intro h
    exact hw_noTriple (h.trans (pyStripL_infix_self _))
  · show (⟨pyStripL (addFinalFormatting s).data⟩ : String) = addFinalFormatting s
    rw [hout, pyStripL_idem]
    rfl

/-- Helper for the progression-selection claim, over an arbitrary feature
record. -/
theorem progression_cases (e : Elements) :
    (progressionLines e = tenseRainOutline ∨ progressionLines e = emotionalOutline ∨
     progressionLines e = actionOutline ∨ progressionLines e = genericOutline) ∧
    (progressionLines e = tenseRainOutline ↔ e.mood = "tenso" ∧ e.weather = "chuva") ∧
    (¬(e.mood = "tenso" ∧ e.weather = "chuva") →
      (progressionLines e = emotionalOutline ↔ e.mood = "emotivo")) ∧
    (¬(e.mood = "tenso" ∧ e.weather = "chuva") → e.mood ≠ "emotivo" →
      (progressionLines e = actionOutline ↔ e.mood = "ação")) ∧
    (e.mood = "suspense" → progressionLines e = genericOutline) ∧
    (e.mood = "tenso" → e.weather ≠ "chuva" → progressionLines e = genericOutline) := by
  unfold progressionLines
  split_ifs with h1 h2 h3
  · exact ⟨Or.inl rfl, iff_of_true rfl h1,
      fun hn => absurd h1 hn,
      fun hn _ => absurd h1 hn,
      fun hs => absurd (h1.1.symm.trans hs) (by decide),
      fun _ hw => absurd h1.2 hw⟩
  · exact ⟨Or.inr (Or.inl rfl), iff_of_false (by decide) h1,
      fun _ => iff_of_true rfl h2,
      fun _ hne => absurd h2 hne,
      fun hs => absurd (h2.symm.trans hs) (by decide),
      fun ht _ => absurd (h2.symm.trans ht) (by decide)⟩
  · exact ⟨Or.inr (Or.inr (Or.inl rfl)), iff_of_false (by decide) h1,
      fun _ => iff_of_false (by decide) h2,
      fun _ _ => iff_of_true rfl h3,
      fun hs => absurd (h3.symm.trans hs) (by decide),
      fun ht _ => absurd (h3.symm.trans ht) (by decide)⟩
  · exact ⟨Or.inr (Or.inr (Or.inr rfl)), iff_of_false (by decide) h1,
      fun _ => iff_of_false (by decide) h2,
      fun _ _ => iff_of_false (by decide) h3,
      fun _ => rfl,
      fun _ _ => rfl⟩

/-! ### Claims -/

/-- C1 (counterexample): when the generation service answers with a
successful response whose trimmed text has 10 characters, the Writer does
not return the deterministic template-assembly fallback content. -/
theorem short_response_counterexample :
    writeSceneAI "llama3.1" "" "" "" scenarioBrief (planScene scenarioBrief) "abcdefghij" ≠
      writeSceneFallback scenarioBrief (planScene scenarioBrief) := by decide

/-- C1 (amended): if the service returns a successful response whose trimmed
text is empty or shorter than 50 characters, the engine itself discards it
and substitutes its canned fallback response; that canned text is longer
than 50 characters, so the Writer's own short-content check passes and the
call returns the engine's canned fallback response, not the
template-assembly fallback, without any retry of the service. -/
theorem short_response_returns_engine_fallback
    (model styleGuide characters world brief scenePlan resp : String)
    (h : pyStrip resp = "" ∨ (pyStrip resp).length < 50) :
    writeSceneAI model styleGuide characters world brief scenePlan resp =
      fallbackResponse model (buildPrompt styleGuide characters world brief scenePlan) := by
  have hcond : ¬ (pyStrip resp ≠ "" ∧ (pyStrip resp).length > 50) := by
    rcases h with h | h
    · exact fun hc => hc.1 h
    · exact fun hc => absurd hc.2 (by omega)
  have hgen : generateFromOkResponse model
      (buildPrompt styleGuide characters world brief scenePlan) resp =
      fallbackResponse model (buildPrompt styleGuide characters world brief scenePlan) := by
    unfold generateFromOkResponse
    rw [if_neg hcond]
  show (if pyStrip (generateFromOkResponse model
        (buildPrompt styleGuide characters world brief scenePlan) resp) = "" ∨
        (pyStrip (generateFromOkResponse model
          (buildPrompt styleGuide characters world brief scenePlan) resp)).length < 50 then
      writeSceneFallback brief scenePlan
    else pyStrip (generateFromOkResponse model
      (buildPrompt styleGuide characters world brief scenePlan) resp)) = _
  rw [hgen, fallbackResponse_strip]
  have hlen := fallbackResponse_length model
    (buildPrompt styleGuide characters world brief scenePlan)
  rw [if_neg ?hne]
  case hne =>
    rintro (h0 | hlt)
    · rw [h0] at hlen
      exact absurd hlen (by decide)
    · omega

/-- C1 (witness): concrete instance of the amended claim, at a 10-character
response. -/
theorem short_response_witness :
    (pyStrip "abcdefghij" = "" ∨ (pyStrip "abcdefghij").length < 50) ∧
    writeSceneAI "llama3.1" "" "" "" scenarioBrief (planScene scenarioBrief) "abcdefghij" =
      fallbackResponse "llama3.1" (buildPrompt "" "" "" scenarioBrief (planScene scenarioBrief)) :=
  ⟨Or.inr (by decide),
   short_response_returns_engine_fallback "llama3.1" "" "" "" scenarioBrief
     (planScene scenarioBrief) "abcdefghij" (Or.inr (by decide))⟩

/-- C2: on the scenario brief, the Planner extracts Ivana and Dr. Manoel,
the MASP setting, tense mood, encounter conflict, night, rain; the Writer's
own extraction agrees; the Planner selects the Tense+Rain six-step outline;
and the deterministic fallback selects the MASP-rain opening, the
Ivana/Dr. Manoel six-line exchange, and the rain closing. -/
theorem scenario_one_features :
    extractElements scenarioBrief =
      ⟨["Ivana", "Dr. Manoel"], "MASP - Museu de Arte de São Paulo", "tenso",
       "encontro/confronto", "noite", "chuva", ""⟩ ∧
    analyzeBrief scenarioBrief =
      ⟨"MASP (Museu de Arte de São Paulo)", ["Ivana", "Dr. Manoel"], "tenso",
       "noite", "chuva", "encontro"⟩ ∧
    progressionLines (extractElements scenarioBrief) = tenseRainOutline ∧
    openingParts (analyzeBrief scenarioBrief) = [maspRainOpening] ∧
    characterParts (analyzeBrief scenarioBrief) = ivanaManoelExchange ∧
    closingParts (analyzeBrief scenarioBrief) = [rainClosing] :=
  ⟨by decide, by decide, by decide, by decide, by decide, by decide⟩

/-- C3: for every brief, exactly one of the four fixed six-step outlines is
selected, with the Tense+Rain outline exactly when mood is tense and weather
is rain, else the Emotional outline when the mood is emotional, else the
Action outline when the mood is action, else the generic outline; suspense,
and tense without rain, fall to the generic outline. -/
theorem progression_selection (brief : String) :
    (progressionLines (extractElements brief) = tenseRainOutline ∨
     progressionLines (extractElements brief) = emotionalOutline ∨
     progressionLines (extractElements brief) = actionOutline ∨
     progressionLines (extractElements brief) = genericOutline) ∧
    (progressionLines (extractElements brief) = tenseRainOutline ↔
      (extractElements brief).mood = "tenso" ∧ (extractElements brief).weather = "chuva") ∧
    (¬((extractElements brief).mood = "tenso" ∧ (extractElements brief).weather = "chuva") →
      (progressionLines (extractElements brief) = emotionalOutline ↔
        (extractElements brief).mood = "emotivo")) ∧
    (¬((extractElements brief).mood = "tenso" ∧ (extractElements brief).weather = "chuva") →
      (extractElements brief).mood ≠ "emotivo" →
      (progressionLines (extractElements brief) = actionOutline ↔
        (extractElements brief).mood = "ação")) ∧
    ((extractElements brief).mood = "suspense" →
      progressionLines (extractElements brief) = genericOutline) ∧
    ((extractElements brief).mood = "tenso" → (extractElements brief).weather ≠ "chuva" →
      progressionLines (extractElements brief) = genericOutline) :=
  progression_cases (extractElements brief)

/-- C4 (counterexample): on the scenario brief no action feature is
extracted, and the Planner's setting block has only the four
local/period/weather/atmosphere lines: no line of the block mentions
movement, and no placeholder stands in for the missing dimension. -/
theorem setting_block_counterexample :
    (extractElements scenarioBrief).action = "" ∧
    (settingLines (extractElements scenarioBrief)).length = 4 ∧
    (settingLines (extractElements scenarioBrief)).all
      (fun line => !(pyContains line "Movimento")) = true :=
  ⟨by decide, by decide, by decide⟩

/-- C4 (amended): each of the four dimensions local, period, weather and
atmosphere is rendered as the extracted value or as its literal placeholder
line when absent; the movement line is rendered exactly when an
action/movement feature was extracted, and is omitted otherwise. -/
theorem setting_block_rendering (brief : String) :
    settingLines (extractElements brief) = settingBlockSpec (extractElements brief) := by
  unfold settingLines settingBlockSpec pyOr
  split_ifs <;> rfl

/-- C5 (counterexample): the editor's literal-correction pass is not
idempotent; on the string of a, two spaces, comma, b a second application
still changes the text. -/
theorem style_corrections_not_idempotent :
    applyStyleCorrections (applyStyleCorrections "a  ,b") ≠
      applyStyleCorrections "a  ,b" := by decide

/-- C5 (amended): one application of the literal-correction pass need not
reach a fixed point; the pass is a no-op exactly on pattern-free text: any
string containing none of the four literal patterns is returned unchanged,
so a second application is a no-op only once the output is pattern-free. -/
theorem style_corrections_noop_of_clean (s : String)
    (h1 : pyContains s " ," = false) (h2 : pyContains s " ." = false)
    (h3 : pyContains s "  " = false) (h4 : pyContains s "\n\n\n" = false) :
    applyStyleCorrections s = s := by
  show pyReplace (pyReplace (pyReplace (pyReplace s " ," ",") " ." ".") "  " " ")
      "\n\n\n" "\n\n" = s
  rw [pyReplace_eq_self _ h1, pyReplace_eq_self _ h2, pyReplace_eq_self _ h3,
    pyReplace_eq_self _ h4]

/-- C5 (witness): a concrete pattern-free string is fixed by the pass. -/
theorem style_corrections_noop_witness :
    applyStyleCorrections "Texto limpo." = "Texto limpo." :=
  style_corrections_noop_of_clean "Texto limpo." (by decide) (by decide) (by decide)
    (by decide)

/-- C6: for every input, the edited scene contains no three consecutive
newline characters (at most one blank line between paragraphs) and has no
leading or trailing whitespace (stripping it is a no-op). -/
theorem edit_scene_normalized (sceneContent brief scenePlan : String) :
    ¬ (['\n', '\n', '\n'] <:+: (editScene sceneContent brief scenePlan).data) ∧
    pyStrip (editScene sceneContent brief scenePlan) = editScene sceneContent brief scenePlan :=
  addFinalFormatting_props _

/-- C7: the deterministic fallback depends only on the extracted features:
two calls whose briefs extract equal features yield identical content,
whatever scene plans and brief texts are passed alongside. -/
theorem fallback_depends_only_on_features (b1 p1 b2 p2 : String)
    (h : analyzeBrief b1 = analyzeBrief b2) :
    writeSceneFallback b1 p1 = writeSceneFallback b2 p2 := by
  unfold writeSceneFallback generateSceneContent
  rw [h]

/-- C7 (witness): two different briefs with equal extracted features and
different plans produce identical fallback content. -/
theorem fallback_depends_only_on_features_witness :
    analyzeBrief "ivana masp" = analyzeBrief "Ivana no MASP." ∧
    writeSceneFallback "ivana masp" "plano um" =
      writeSceneFallback "Ivana no MASP." "plano dois" :=
  ⟨by decide, fallback_depends_only_on_features "ivana masp" "plano um" "Ivana no MASP."
    "plano dois" (by decide)⟩

/-- C8: the empty brief extracts a feature record with every field empty, in
both the Planner and the Writer, and the Planner, the deterministic fallback
generator and the Editor still produce non-empty output. -/
theorem empty_brief_defaults :
    extractElements "" = ⟨[], "", "", "", "", "", ""⟩ ∧
    analyzeBrief "" = ⟨"", [], "", "", "", ""⟩ ∧
    planScene "" ≠ "" ∧
    writeSceneFallback "" (planScene "") ≠ "" ∧
    editScene (writeSceneFallback "" (planScene "")) "" (planScene "") ≠ "" :=
  ⟨by decide, by decide, by decide, by decide, by decide⟩

/-- C9: Father and Daughter are detected only jointly, in both the Planner's
and the Writer's extraction: each is in the character list exactly when both
the pai and the filha substrings occur in the lower-cased brief. -/
theorem father_daughter_joint (brief : String) :
    ((extractElements brief).characters.contains "Pai"
      = (pyContains (pyLower brief) "pai" && pyContains (pyLower brief) "filha")) ∧
    ((extractElements brief).characters.contains "Filha"
      = (pyContains (pyLower brief) "pai" && pyContains (pyLower brief) "filha")) ∧
    ((analyzeBrief brief).characters.contains "pai"
      = (pyContains (pyLower brief) "pai" && pyContains (pyLower brief) "filha")) ∧
    ((analyzeBrief brief).characters.contains "filha"
      = (pyContains (pyLower brief) "pai" && pyContains (pyLower brief) "filha")) := by
  unfold extractElements analyzeBrief
  cases h1 : pyContains (pyLower brief) "ivana" <;>
  cases h2 : (pyContains (pyLower brief) "dr. manoel" || pyContains (pyLower brief) "manoel"
    || pyContains (pyLower brief) "dr manoel") <;>
  cases h3 : (pyContains (pyLower brief) "pai" && pyContains (pyLower brief) "filha") <;>
  simp [h1, h2, h3]

/-- C10: when a paragraph satisfies both enhancement gates, the result is
the original paragraph with only the silhouette replacement applied; the
rain enhancement is discarded, not composed. -/
theorem enhance_paragraph_keeps_only_silhouette (p : String)
    (h1 : pyContains (pyLower p) "chuva" = true)
    (h2 : pyContains (pyLower p) "tamborilava" = true)
    (h3 : pyContains p "Dr. Manoel" = true)
    (h4 : pyContains p "silhueta" = true) :
    enhanceParagraph p =
      pyReplace p "a silhueta familiar de Dr. Manoel"
        "a silhueta inconfundível de Dr. Manoel" := by
  simp [enhanceParagraph, h3, h4]

/-- C10 (witness): a concrete paragraph passing both gates gets only the
silhouette replacement, leaving the rain phrase unchanged. -/
theorem enhance_paragraph_witness :
    enhanceParagraph
        "A chuva tamborilava contra as grandes janelas, e a silhueta familiar de Dr. Manoel surgiu." =
      pyReplace
        "A chuva tamborilava contra as grandes janelas, e a silhueta familiar de Dr. Manoel surgiu."
        "a silhueta familiar de Dr. Manoel" "a silhueta inconfundível de Dr. Manoel" :=
  enhance_paragraph_keeps_only_silhouette _ (by decide) (by decide) (by decide) (by decide)

end BookAgents

